import Mathlib

/-!
Verification of the sign-in session coordinator (SigninStore) and the
storage topology type guard (isVdevGroup) of the webui repository.

The TypeScript store is shallowly embedded: the SigninState record and its
updaters become Lean structures and pure functions; every reactive operation
(init, loginWithToken, generateToken, handleSuccessfulLogin,
loadFailoverStatus) becomes a function from the RPC responses supplied by
the channel and the current world to the resulting world, where a world
carries the SigninState, the cached channel token, and a trace of observable
events (RPC calls, notifications, push subscribe/unsubscribe requests,
navigation, error dialogs).
-/

/-- HA role reported by the failover.status RPC.
Modelled from the spec: the FailoverStatus enum itself lives in
app/enums/failover-status.enum outside the given sources; the spec lists
the members Single, Master, Backup, Error among others. Only Single and
Master ever matter to the store logic. -/
inductive FailoverStatus where
  | single
  | master
  | backup
  | electing
  | importing
  | error
  deriving DecidableEq, Repr

/-- Reason code of the failover.disabled.reasons RPC; opaque at this layer,
modelled as a string. -/
abbrev FailoverDisabledReason := String

/-- The failover portion of the state. In the TypeScript source all three
fields can be individually absent at runtime (the updaters spread a possibly
null object), so each field is an Option. -/
structure FailoverInfo where
  status : Option FailoverStatus
  ips : Option (List String)
  disabledReasons : Option (List FailoverDisabledReason)
  deriving DecidableEq, Repr

/-- The empty object produced by spreading a null failover value. -/
def emptyFailover : FailoverInfo :=
  { status := none, ips := none, disabledReasons := none }

/-- SigninState from the source: isLoading, hasRootPassword and a nullable
failover record. -/
structure SigninState where
  isLoading : Bool
  hasRootPassword : Bool
  failover : Option FailoverInfo
  deriving DecidableEq, Repr

/-- initialState from the source. -/
def initialState : SigninState :=
  { isLoading := false, hasRootPassword := true, failover := none }

/-- setLoadingState updater: spread of state with isLoading replaced. -/
def setLoadingState (s : SigninState) (isLoading : Bool) : SigninState :=
  { s with isLoading := isLoading }

/-- setFailoverStatus updater: spreads state, replacing failover with the
spread of the old failover (or the empty object when it is null) plus the
new status. -/
def setFailoverStatus (s : SigninState) (failover : FailoverStatus) : SigninState :=
  { s with failover := some { s.failover.getD emptyFailover with status := some failover } }

/-- setFailoverIps updater: spreads the old failover (spreading null yields
the empty object) plus the new ips. -/
def setFailoverIps (s : SigninState) (ips : List String) : SigninState :=
  { s with failover := some { s.failover.getD emptyFailover with ips := some ips } }

/-- setFailoverDisabledReasons updater: spreads the old failover plus the
new disabledReasons. -/
def setFailoverDisabledReasons (s : SigninState)
    (disabledReasons : List FailoverDisabledReason) : SigninState :=
  { s with failover := some { s.failover.getD emptyFailover with disabledReasons := some disabledReasons } }

/-- Optional-chaining read state.failover?.status used by the canLogin
projection. -/
def failoverStatusField (s : SigninState) : Option FailoverStatus :=
  match s.failover with
  | none => none
  | some f => f.status

/-- Optional-chaining read of the ips field. -/
def failoverIpsField (s : SigninState) : Option (List String) :=
  match s.failover with
  | none => none
  | some f => f.ips

/-- Optional-chaining read of the disabledReasons field. -/
def failoverDisabledReasonsField (s : SigninState) : Option (List FailoverDisabledReason) :=
  match s.failover with
  | none => none
  | some f => f.disabledReasons

/-- The second input of the canLogin combination: whether
state.failover?.status is included in the pair Single, Master. An absent
status is included in nothing, as in the source where includes receives
undefined. -/
def failoverAllowsLogin (s : SigninState) : Bool :=
  match failoverStatusField s with
  | none => false
  | some st => st = FailoverStatus.single ∨ st = FailoverStatus.master

/-- canLogin projection: the channel connected signal AND
failoverAllowsLogin, combined pointwise as in the combineLatest map. -/
def canLogin (isConnected : Bool) (s : SigninState) : Bool :=
  isConnected && failoverAllowsLogin s

/-- Opaque RPC error, the single error category forwarded unmodified to the
error dialog collaborator. -/
structure WsError where
  code : Nat
  deriving DecidableEq, Repr

/-- The two subscription identifiers are UUIDs generated once per store
lifetime; modelled as two fixed, distinct strings. -/
def statusSubscriptionId : String := "uuid-status-subscription"

/-- Second pre-generated subscription identifier, for disabled reasons. -/
def disabledReasonsSubscriptionId : String := "uuid-disabled-reasons-subscription"

/-- Token lifetime in seconds passed to auth.generate_token. -/
def tokenLifetime : Nat := 300

/-- Observable effects emitted by the store while an operation runs. -/
inductive Event where
  | call (method : String)
  | subscribeTopic (topic : String) (subId : String)
  | unsubscribeTopic (topic : String) (subId : String)
  | notify (message : String)
  | snackbarDismiss
  | invokeHandleSuccessfulLogin
  | navigate (url : String)
  | errorDialog
  deriving DecidableEq, Repr

/-- World threaded through the operations: the store state, the cached
channel token (ws.token) and the trace of emitted events. -/
structure World where
  state : SigninState
  token : Option String
  events : List Event
  deriving DecidableEq, Repr

/-- Append one event to the trace. -/
def emit (w : World) (e : Event) : World :=
  { w with events := w.events ++ [e] }

/-- showSnackbar: opens a transient notification (message with a localized
Close action, 4000 ms, bottom); only the message is observable here. -/
def showSnackbar (message : String) (w : World) : World :=
  emit w (Event.notify message)

/-- checkIfRootPasswordSet: calls user.has_root_password and patches the
hasRootPassword field with the response. -/
def checkIfRootPasswordSet (resp : Except WsError Bool) (w : World) :
    World × Except WsError Bool :=
  let w := emit w (Event.call "user.has_root_password")
  match resp with
  | Except.error e => (w, Except.error e)
  | Except.ok hasRootPassword =>
      ({ w with state := { w.state with hasRootPassword := hasRootPassword } },
        Except.ok hasRootPassword)

/-- subscribeToFailoverUpdates: subscribes to the failover.status and
failover.disabled.reasons push topics with the two pre-generated
subscription identifiers. Pushed values are fed to setFailoverStatus and
setFailoverDisabledReasons respectively. -/
def subscribeToFailoverUpdates (w : World) : World :=
  emit (emit w (Event.subscribeTopic "failover.status" statusSubscriptionId))
    (Event.subscribeTopic "failover.disabled.reasons" disabledReasonsSubscriptionId)

/-- loadAdditionalFailoverInfo: forkJoin of failover.get_ips and
failover.disabled.reasons; on success stores reasons then ips. -/
def loadAdditionalFailoverInfo (ipsResp : Except WsError (List String))
    (reasonsResp : Except WsError (List FailoverDisabledReason)) (w : World) :
    World × Except WsError Unit :=
  let w := emit (emit w (Event.call "failover.get_ips")) (Event.call "failover.disabled.reasons")
  match ipsResp, reasonsResp with
  | Except.ok ips, Except.ok reasons =>
      let w := { w with state := setFailoverDisabledReasons w.state reasons }
      let w := { w with state := setFailoverIps w.state ips }
      (w, Except.ok ())
  | Except.error e, _ => (w, Except.error e)
  | Except.ok _, Except.error e => (w, Except.error e)

/-- loadFailoverStatus: calls failover.status, stores the status; when it is
Single the chain ends, otherwise it subscribes to push updates and loads the
additional failover info. -/
def loadFailoverStatus (statusResp : Except WsError FailoverStatus)
    (ipsResp : Except WsError (List String))
    (reasonsResp : Except WsError (List FailoverDisabledReason)) (w : World) :
    World × Except WsError Unit :=
  let w := emit w (Event.call "failover.status")
  match statusResp with
  | Except.error e => (w, Except.error e)
  | Except.ok status =>
      let w := { w with state := setFailoverStatus w.state status }
      if status = FailoverStatus.single then
        (w, Except.ok ())
      else
        loadAdditionalFailoverInfo ipsResp reasonsResp (subscribeToFailoverUpdates w)

/-- generateToken: calls auth.generate_token with the fixed tokenLifetime.
A falsy (empty) token only shows a notification and leaves the cached token
unchanged; a non-empty token is cached. The token value is emitted
downstream either way. -/
def generateToken (resp : Except WsError String) (w : World) :
    World × Except WsError String :=
  let w := emit w (Event.call "auth.generate_token")
  match resp with
  | Except.error e => (w, Except.error e)
  | Except.ok token =>
      if token = "" then
        (showSnackbar "Error generating token, please try again." w, Except.ok token)
      else
        ({ w with token := some token }, Except.ok token)

/-- Second branch of getRedirectUrl: the sessionStorage currentUrl entry if
truthy, else the /dashboard fallback. -/
def storedUrlOrDashboard : Option String → String
  | some currentUrl => if currentUrl = "" then "/dashboard" else currentUrl
  | none => "/dashboard"

/-- getRedirectUrl: the channel redirectUrl when truthy, else the stored
currentUrl when truthy, else /dashboard. An empty string is falsy in the
source, hence the emptiness tests. -/
def getRedirectUrl (redirectUrl : Option String) (currentUrl : Option String) : String :=
  match redirectUrl with
  | some u => if u = "" then storedUrlOrDashboard currentUrl else u
  | none => storedUrlOrDashboard currentUrl

/-- handleSuccessfulLogin: sets loading, dismisses the snackbar, runs
generateToken; on success unsubscribes the two push subscriptions (note the
unsubscribe topic strings of the source) and navigates to the redirect
target; on error opens the error dialog. The leading event marks the
invocation itself. -/
def handleSuccessfulLogin (genResp : Except WsError String)
    (redirectUrl : Option String) (currentUrl : Option String) (w : World) : World :=
  let w := emit w Event.invokeHandleSuccessfulLogin
  let w := { w with state := setLoadingState w.state true }
  let w := emit w Event.snackbarDismiss
  match generateToken genResp w with
  | (w, Except.ok _) =>
      let w := emit w (Event.unsubscribeTopic "failover.status" statusSubscriptionId)
      let w := emit w (Event.unsubscribeTopic "failover.disabled_reasons" disabledReasonsSubscriptionId)
      emit w (Event.navigate (getRedirectUrl redirectUrl currentUrl))
  | (w, Except.error _) => emit w Event.errorDialog

/-- loginWithToken: invokes the channel token login. A rejected token shows
the expiry notification, clears the cached token and resets isLoading; an
accepted one proceeds to handleSuccessfulLogin. The login outcome flows
downstream. -/
def loginWithToken (loginResp : Except WsError Bool)
    (genResp : Except WsError String) (redirectUrl : Option String)
    (currentUrl : Option String) (w : World) : World × Except WsError Bool :=
  let w := emit w (Event.call "auth.token")
  match loginResp with
  | Except.error e => (w, Except.error e)
  | Except.ok wasLoggedIn =>
      if wasLoggedIn then
        (handleSuccessfulLogin genResp redirectUrl currentUrl w, Except.ok true)
      else
        let w := showSnackbar "Token expired, please log back in." w
        let w := { w with token := none }
        let w := { w with state := setLoadingState w.state false }
        (w, Except.ok false)

/-- Inner pipe of init: forkJoin of the root password check and the failover
status load, then, when both succeeded, the token-login decision on the
cached token. -/
def initCore (rootResp : Except WsError Bool)
    (statusResp : Except WsError FailoverStatus)
    (ipsResp : Except WsError (List String))
    (reasonsResp : Except WsError (List FailoverDisabledReason))
    (loginResp : Except WsError Bool) (genResp : Except WsError String)
    (redirectUrl : Option String) (currentUrl : Option String) (w : World) :
    World × Except WsError Unit :=
  match checkIfRootPasswordSet rootResp w with
  | (w1, r1) =>
    match loadFailoverStatus statusResp ipsResp reasonsResp w1 with
    | (w2, r2) =>
      match r1, r2 with
      | Except.ok _, Except.ok _ =>
          match w2.token with
          | none => (w2, Except.ok ())
          | some _ =>
              match loginWithToken loginResp genResp redirectUrl currentUrl w2 with
              | (w3, Except.ok _) => (w3, Except.ok ())
              | (w3, Except.error e) => (w3, Except.error e)
      | Except.error e, _ => (w2, Except.error e)
      | Except.ok _, Except.error e => (w2, Except.error e)

/-- init effect: sets loading, runs the bootstrap pipe, and in the final
tapResponse resets isLoading on success and resets isLoading and opens the
error dialog on failure. -/
def init (rootResp : Except WsError Bool)
    (statusResp : Except WsError FailoverStatus)
    (ipsResp : Except WsError (List String))
    (reasonsResp : Except WsError (List FailoverDisabledReason))
    (loginResp : Except WsError Bool) (genResp : Except WsError String)
    (redirectUrl : Option String) (currentUrl : Option String) (w : World) : World :=
  match initCore rootResp statusResp ipsResp reasonsResp loginResp genResp redirectUrl currentUrl
      { w with state := setLoadingState w.state true } with
  | (w1, Except.ok _) => { w1 with state := setLoadingState w1.state false }
  | (w1, Except.error _) =>
      emit { w1 with state := setLoadingState w1.state false } Event.errorDialog

/-- Modelled from the spec: the TopologyItem interface of
app/interfaces/storage.interface is not among the given sources; it is a
storage topology node record and declares no group field. Its own fields are
irrelevant here, so it is kept opaque apart from an identifier. -/
structure TopologyItem where
  guid : String
  deriving DecidableEq, Repr

/-- VDevGroup from the source: a group label, a guid and topology item
children; the group field is the one the type guard tests for. -/
structure VDevGroup where
  group : String
  guid : String
  children : List TopologyItem
  deriving DecidableEq, Repr

/-- DeviceNestedDataNode: a TopologyItem or a VDevGroup. -/
inductive DeviceNestedDataNode where
  | topology (item : TopologyItem)
  | vdevGroup (g : VDevGroup)
  deriving DecidableEq, Repr

/-- Runtime presence of the group key tested by the in operator: VDevGroup
declares group, TopologyItem does not. -/
def hasGroupProperty : DeviceNestedDataNode → Bool
  | DeviceNestedDataNode.topology _ => false
  | DeviceNestedDataNode.vdevGroup _ => true

/-- isVdevGroup type guard: the in test for the group key. -/
def isVdevGroup (node : DeviceNestedDataNode) : Bool :=
  hasGroupProperty node

/-- A fresh world: initial state, no cached token, empty trace. -/
def wEmpty : World :=
  { state := initialState, token := none, events := [] }

/-- A fresh world with a cached token on the channel. -/
def wTok : World :=
  { state := initialState, token := some "cached-token", events := [] }

/-- Event classifier: push subscription requests. -/
def isSubscribeEvent : Event → Bool
  | Event.subscribeTopic _ _ => true
  | _ => false

/-- Event classifier: notifications. -/
def isNotifyEvent : Event → Bool
  | Event.notify _ => true
  | _ => false

/-- Event classifier: RPC calls to the two failover detail methods. -/
def isFailoverDetailCall : Event → Bool
  | Event.call m => m = "failover.get_ips" ∨ m = "failover.disabled.reasons"
  | _ => false

/-- Topic of a subscribe event, for trace projections. -/
def subscribeEventTopic : Event → Option String
  | Event.subscribeTopic topic _ => some topic
  | _ => none

/-- Topic of an unsubscribe event, for trace projections. -/
def unsubscribeEventTopic : Event → Option String
  | Event.unsubscribeTopic topic _ => some topic
  | _ => none

section FrameLemmas

@[simp]
lemma setLoadingState_isLoading (s : SigninState) (b : Bool) :
    (setLoadingState s b).isLoading = b := rfl

@[simp]
lemma setLoadingState_hasRootPassword (s : SigninState) (b : Bool) :
    (setLoadingState s b).hasRootPassword = s.hasRootPassword := rfl

@[simp]
lemma setLoadingState_failover (s : SigninState) (b : Bool) :
    (setLoadingState s b).failover = s.failover := rfl

@[simp]
lemma setFailoverStatus_isLoading (s : SigninState) (st : FailoverStatus) :
    (setFailoverStatus s st).isLoading = s.isLoading := rfl

@[simp]
lemma setFailoverStatus_hasRootPassword (s : SigninState) (st : FailoverStatus) :
    (setFailoverStatus s st).hasRootPassword = s.hasRootPassword := rfl

@[simp]
lemma setFailoverStatus_statusField (s : SigninState) (st : FailoverStatus) :
    failoverStatusField (setFailoverStatus s st) = some st := by
  cases h : s.failover <;> simp [failoverStatusField, setFailoverStatus, h]

@[simp]
lemma setFailoverStatus_ipsField (s : SigninState) (st : FailoverStatus) :
    failoverIpsField (setFailoverStatus s st) = failoverIpsField s := by
  cases h : s.failover <;> simp [failoverIpsField, setFailoverStatus, emptyFailover, h]

@[simp]
lemma setFailoverStatus_disabledReasonsField (s : SigninState) (st : FailoverStatus) :
    failoverDisabledReasonsField (setFailoverStatus s st) = failoverDisabledReasonsField s := by
  cases h : s.failover <;>
    simp [failoverDisabledReasonsField, setFailoverStatus, emptyFailover, h]

@[simp]
lemma setFailoverIps_isLoading (s : SigninState) (ips : List String) :
    (setFailoverIps s ips).isLoading = s.isLoading := rfl

@[simp]
lemma setFailoverIps_hasRootPassword (s : SigninState) (ips : List String) :
    (setFailoverIps s ips).hasRootPassword = s.hasRootPassword := rfl

@[simp]
lemma setFailoverIps_statusField (s : SigninState) (ips : List String) :
    failoverStatusField (setFailoverIps s ips) = failoverStatusField s := by
  cases h : s.failover <;> simp [failoverStatusField, setFailoverIps, emptyFailover, h]

@[simp]
lemma setFailoverIps_ipsField (s : SigninState) (ips : List String) :
    failoverIpsField (setFailoverIps s ips) = some ips := by
  cases h : s.failover <;> simp [failoverIpsField, setFailoverIps, h]

@[simp]
lemma setFailoverIps_disabledReasonsField (s : SigninState) (ips : List String) :
    failoverDisabledReasonsField (setFailoverIps s ips) = failoverDisabledReasonsField s := by
  cases h : s.failover <;>
    simp [failoverDisabledReasonsField, setFailoverIps, emptyFailover, h]

@[simp]
lemma setFailoverDisabledReasons_isLoading (s : SigninState)
    (rs : List FailoverDisabledReason) :
    (setFailoverDisabledReasons s rs).isLoading = s.isLoading := rfl

@[simp]
lemma setFailoverDisabledReasons_hasRootPassword (s : SigninState)
    (rs : List FailoverDisabledReason) :
    (setFailoverDisabledReasons s rs).hasRootPassword = s.hasRootPassword := rfl

@[simp]
lemma setFailoverDisabledReasons_statusField (s : SigninState)
    (rs : List FailoverDisabledReason) :
    failoverStatusField (setFailoverDisabledReasons s rs) = failoverStatusField s := by
  cases h : s.failover <;>
    simp [failoverStatusField, setFailoverDisabledReasons, emptyFailover, h]

@[simp]
lemma setFailoverDisabledReasons_ipsField (s : SigninState)
    (rs : List FailoverDisabledReason) :
    failoverIpsField (setFailoverDisabledReasons s rs) = failoverIpsField s := by
  cases h : s.failover <;>
    simp [failoverIpsField, setFailoverDisabledReasons, emptyFailover, h]

@[simp]
lemma setFailoverDisabledReasons_disabledReasonsField (s : SigninState)
    (rs : List FailoverDisabledReason) :
    failoverDisabledReasonsField (setFailoverDisabledReasons s rs) = some rs := by
  cases h : s.failover <;> simp [failoverDisabledReasonsField, setFailoverDisabledReasons, h]

end FrameLemmas

section BehaviorLemmas

lemma checkIfRootPasswordSet_token (resp : Except WsError Bool) (w : World) :
    ((checkIfRootPasswordSet resp w).1).token = w.token := by
  cases resp <;> simp [checkIfRootPasswordSet, emit]

lemma checkIfRootPasswordSet_ok (b : Bool) (w : World) :
    checkIfRootPasswordSet (Except.ok b) w =
      ({ state := { w.state with hasRootPassword := b }, token := w.token,
         events := w.events ++ [Event.call "user.has_root_password"] }, Except.ok b) := by
  simp [checkIfRootPasswordSet, emit]

lemma loadAdditionalFailoverInfo_hasRootPassword (ipsResp : Except WsError (List String))
    (reasonsResp : Except WsError (List FailoverDisabledReason)) (w : World) :
    ((loadAdditionalFailoverInfo ipsResp reasonsResp w).1).state.hasRootPassword =
      w.state.hasRootPassword := by
  cases ipsResp <;> cases reasonsResp <;> simp [loadAdditionalFailoverInfo, emit]

lemma loadAdditionalFailoverInfo_token (ipsResp : Except WsError (List String))
    (reasonsResp : Except WsError (List FailoverDisabledReason)) (w : World) :
    ((loadAdditionalFailoverInfo ipsResp reasonsResp w).1).token = w.token := by
  cases ipsResp <;> cases reasonsResp <;> simp [loadAdditionalFailoverInfo, emit]

lemma loadFailoverStatus_hasRootPassword (statusResp : Except WsError FailoverStatus)
    (ipsResp : Except WsError (List String))
    (reasonsResp : Except WsError (List FailoverDisabledReason)) (w : World) :
    ((loadFailoverStatus statusResp ipsResp reasonsResp w).1).state.hasRootPassword =
      w.state.hasRootPassword := by
  cases statusResp with
  | error e => simp [loadFailoverStatus, emit]
  | ok st =>
      by_cases hst : st = FailoverStatus.single
      · simp [loadFailoverStatus, emit, hst]
      · simp only [loadFailoverStatus, emit, hst, if_false]
        rw [loadAdditionalFailoverInfo_hasRootPassword]
        simp [subscribeToFailoverUpdates, emit]

lemma loadFailoverStatus_token (statusResp : Except WsError FailoverStatus)
    (ipsResp : Except WsError (List String))
    (reasonsResp : Except WsError (List FailoverDisabledReason)) (w : World) :
    ((loadFailoverStatus statusResp ipsResp reasonsResp w).1).token = w.token := by
  cases statusResp with
  | error e => simp [loadFailoverStatus, emit]
  | ok st =>
      by_cases hst : st = FailoverStatus.single
      · simp [loadFailoverStatus, emit, hst]
      · simp only [loadFailoverStatus, emit, hst, if_false]
        rw [loadAdditionalFailoverInfo_token]
        simp [subscribeToFailoverUpdates, emit]

lemma initCore_hasRootPassword (b : Bool) (statusResp : Except WsError FailoverStatus)
    (ipsResp : Except WsError (List String))
    (reasonsResp : Except WsError (List FailoverDisabledReason))
    (loginResp : Except WsError Bool) (genResp : Except WsError String)
    (redirectUrl currentUrl : Option String) (w : World) (hTok : w.token = none) :
    ((initCore (Except.ok b) statusResp ipsResp reasonsResp loginResp genResp
        redirectUrl currentUrl w).1).state.hasRootPassword = b := by
  unfold initCore
  rw [checkIfRootPasswordSet_ok]
  dsimp only
  rcases h2 : loadFailoverStatus statusResp ipsResp reasonsResp
      { state := { w.state with hasRootPassword := b }, token := w.token,
        events := w.events ++ [Event.call "user.has_root_password"] } with ⟨w2, r2⟩
  have hw2b : w2.state.hasRootPassword = b := by
    have h := loadFailoverStatus_hasRootPassword statusResp ipsResp reasonsResp
      { state := { w.state with hasRootPassword := b }, token := w.token,
        events := w.events ++ [Event.call "user.has_root_password"] }
    rw [h2] at h
    exact h
  have hw2tok : w2.token = none := by
    have h := loadFailoverStatus_token statusResp ipsResp reasonsResp
      { state := { w.state with hasRootPassword := b }, token := w.token,
        events := w.events ++ [Event.call "user.has_root_password"] }
    rw [h2] at h
    rw [h, hTok]
  cases r2 <;> simp [hw2tok, hw2b]

lemma init_isLoading (rootResp : Except WsError Bool)
    (statusResp : Except WsError FailoverStatus)
    (ipsResp : Except WsError (List String))
    (reasonsResp : Except WsError (List FailoverDisabledReason))
    (loginResp : Except WsError Bool) (genResp : Except WsError String)
    (redirectUrl currentUrl : Option String) (w : World) :
    (init rootResp statusResp ipsResp reasonsResp loginResp genResp
      redirectUrl currentUrl w).state.isLoading = false := by
  unfold init
  rcases h : initCore rootResp statusResp ipsResp reasonsResp loginResp genResp
      redirectUrl currentUrl { w with state := setLoadingState w.state true } with ⟨w2, r⟩
  cases r <;> simp [emit]

lemma init_hasRootPassword (b : Bool) (statusResp : Except WsError FailoverStatus)
    (ipsResp : Except WsError (List String))
    (reasonsResp : Except WsError (List FailoverDisabledReason))
    (loginResp : Except WsError Bool) (genResp : Except WsError String)
    (redirectUrl currentUrl : Option String) (w : World) (hTok : w.token = none) :
    (init (Except.ok b) statusResp ipsResp reasonsResp loginResp genResp
      redirectUrl currentUrl w).state.hasRootPassword = b := by
  unfold init
  rcases h : initCore (Except.ok b) statusResp ipsResp reasonsResp loginResp genResp
      redirectUrl currentUrl { w with state := setLoadingState w.state true } with ⟨w2, r⟩
  have hb : w2.state.hasRootPassword = b := by
    have h0 := initCore_hasRootPassword b statusResp ipsResp reasonsResp loginResp genResp
      redirectUrl currentUrl { w with state := setLoadingState w.state true } hTok
    rw [h] at h0
    exact h0
  cases r <;> simp [emit, hb]

end BehaviorLemmas

/-- C1: canLogin is true iff the channel is connected and the failover
status read through the optional chain is Single or Master; in particular a
connected Master state can log in and a Backup state cannot, whatever the
connection state. -/
theorem canLogin_characterization (isConnected : Bool) (s : SigninState) :
    (canLogin isConnected s = true ↔
      isConnected = true ∧ (failoverStatusField s = some FailoverStatus.single ∨
        failoverStatusField s = some FailoverStatus.master)) ∧
    (∀ ips dr, canLogin true
      { s with failover := some { status := some FailoverStatus.master, ips := ips, disabledReasons := dr } } = true) ∧
    (∀ c ips dr, canLogin c
      { s with failover := some { status := some FailoverStatus.backup, ips := ips, disabledReasons := dr } } = false) := by
  refine ⟨?_, ?_, ?_⟩
  · cases h : failoverStatusField s with
    | none => simp [canLogin, failoverAllowsLogin, h]
    | some st =>
        cases st <;> cases isConnected <;> simp [canLogin, failoverAllowsLogin, h]
  · intro ips dr
    simp [canLogin, failoverAllowsLogin, failoverStatusField]
  · intro c ips dr
    simp [canLogin, failoverAllowsLogin, failoverStatusField]

/-- Witness for C1: a connected Master state satisfies the characterization. -/
theorem canLogin_characterization_witness :
    canLogin true
      { isLoading := false, hasRootPassword := true,
        failover := some { status := some FailoverStatus.master, ips := none, disabledReasons := none } } = true := by
  exact (canLogin_characterization true _).1.mpr ⟨rfl, Or.inr rfl⟩

/-- C9: every updater is a pure merge: setLoadingState only replaces
isLoading; each failover updater only replaces its own failover field,
keeping the other two failover fields, isLoading and hasRootPassword. -/
theorem updaters_are_pure_merges (s : SigninState) (b : Bool) (st : FailoverStatus)
    (ips : List String) (rs : List FailoverDisabledReason) :
    ((setLoadingState s b).isLoading = b ∧
      (setLoadingState s b).hasRootPassword = s.hasRootPassword ∧
      (setLoadingState s b).failover = s.failover) ∧
    ((setFailoverStatus s st).isLoading = s.isLoading ∧
      (setFailoverStatus s st).hasRootPassword = s.hasRootPassword ∧
      failoverStatusField (setFailoverStatus s st) = some st ∧
      failoverIpsField (setFailoverStatus s st) = failoverIpsField s ∧
      failoverDisabledReasonsField (setFailoverStatus s st) = failoverDisabledReasonsField s) ∧
    ((setFailoverIps s ips).isLoading = s.isLoading ∧
      (setFailoverIps s ips).hasRootPassword = s.hasRootPassword ∧
      failoverIpsField (setFailoverIps s ips) = some ips ∧
      failoverStatusField (setFailoverIps s ips) = failoverStatusField s ∧
      failoverDisabledReasonsField (setFailoverIps s ips) = failoverDisabledReasonsField s) ∧
    ((setFailoverDisabledReasons s rs).isLoading = s.isLoading ∧
      (setFailoverDisabledReasons s rs).hasRootPassword = s.hasRootPassword ∧
      failoverDisabledReasonsField (setFailoverDisabledReasons s rs) = some rs ∧
      failoverStatusField (setFailoverDisabledReasons s rs) = failoverStatusField s ∧
      failoverIpsField (setFailoverDisabledReasons s rs) = failoverIpsField s) := by
  refine ⟨⟨rfl, rfl, rfl⟩, ⟨rfl, rfl, ?_, ?_, ?_⟩, ⟨rfl, rfl, ?_, ?_, ?_⟩, ⟨rfl, rfl, ?_, ?_, ?_⟩⟩ <;> simp

/-- C10: the isVdevGroup guard is the group-key test: it accepts a node iff
the node is a VDevGroup, accepting every VDevGroup and rejecting every
TopologyItem, which has no group field. -/
theorem isVdevGroup_correct (node : DeviceNestedDataNode) :
    (isVdevGroup node = true ↔ ∃ g, node = DeviceNestedDataNode.vdevGroup g) ∧
    (∀ g, isVdevGroup (DeviceNestedDataNode.vdevGroup g) = true) ∧
    (∀ item, isVdevGroup (DeviceNestedDataNode.topology item) = false) := by
  refine ⟨?_, fun g => rfl, fun item => rfl⟩
  cases node with
  | topology item => simp [isVdevGroup, hasGroupProperty]
  | vdevGroup g => simp [isVdevGroup, hasGroupProperty]

/-- Witness for C10 at a concrete group node and a concrete topology item. -/
theorem isVdevGroup_correct_witness :
    isVdevGroup (DeviceNestedDataNode.vdevGroup { group := "data", guid := "1", children := [] }) = true ∧
    isVdevGroup (DeviceNestedDataNode.topology { guid := "2" }) = false := by
  refine ⟨?_, ?_⟩
  · exact (isVdevGroup_correct
      (DeviceNestedDataNode.vdevGroup { group := "data", guid := "1", children := [] })).2.1 _
  · exact (isVdevGroup_correct (DeviceNestedDataNode.topology { guid := "2" })).2.2 _

/-- C6: getRedirectUrl precedence: a non-empty channel redirectUrl wins over
any stored currentUrl; with no redirectUrl a non-empty stored currentUrl is
used; with neither the constant /dashboard results. -/
theorem getRedirectUrl_precedence (u c : String) (hu : u ≠ "") (hc : c ≠ "") :
    (∀ currentUrl, getRedirectUrl (some u) currentUrl = u) ∧
    getRedirectUrl none (some c) = c ∧
    getRedirectUrl none none = "/dashboard" := by
  refine ⟨fun currentUrl => ?_, ?_, rfl⟩
  · simp [getRedirectUrl, hu]
  · simp [getRedirectUrl, storedUrlOrDashboard, hc]

/-- Witness for C6 at concrete URLs. -/
theorem getRedirectUrl_precedence_witness :
    getRedirectUrl (some "/a") (some "/b") = "/a" ∧
    getRedirectUrl none (some "/b") = "/b" ∧
    getRedirectUrl none none = "/dashboard" := by
  have h := getRedirectUrl_precedence "/a" "/b" (by decide) (by decide)
  exact ⟨h.1 (some "/b"), h.2.1, h.2.2⟩

/-- C2: a token login the channel rejects ends with the cached token
cleared, isLoading false, exactly one notification whose text is the expiry
message appended to the trace, and no invocation of handleSuccessfulLogin. -/
theorem loginWithToken_rejected (genResp : Except WsError String)
    (redirectUrl currentUrl : Option String) (w : World) :
    ((loginWithToken (Except.ok false) genResp redirectUrl currentUrl w).1.token = none) ∧
    ((loginWithToken (Except.ok false) genResp redirectUrl currentUrl w).1.state.isLoading = false) ∧
    ((loginWithToken (Except.ok false) genResp redirectUrl currentUrl w).1.events =
      w.events ++ [Event.call "auth.token", Event.notify "Token expired, please log back in."]) ∧
    (((loginWithToken (Except.ok false) genResp redirectUrl currentUrl w).1.events.drop
        w.events.length).filter isNotifyEvent =
      [Event.notify "Token expired, please log back in."]) ∧
    (Event.invokeHandleSuccessfulLogin ∉
      (loginWithToken (Except.ok false) genResp redirectUrl currentUrl w).1.events.drop
        w.events.length) ∧
    ((loginWithToken (Except.ok false) genResp redirectUrl currentUrl w).2 = Except.ok false) := by
  have hev : (loginWithToken (Except.ok false) genResp redirectUrl currentUrl w).1.events =
      w.events ++ [Event.call "auth.token", Event.notify "Token expired, please log back in."] := by
    simp [loginWithToken, showSnackbar, emit]
  have hdrop : (loginWithToken (Except.ok false) genResp redirectUrl currentUrl w).1.events.drop
      w.events.length =
      [Event.call "auth.token", Event.notify "Token expired, please log back in."] := by
    rw [hev]
    exact List.drop_left w.events _
  refine ⟨?_, ?_, hev, ?_, ?_, ?_⟩
  · simp [loginWithToken, showSnackbar, emit]
  · simp [loginWithToken, showSnackbar, emit]
  · rw [hdrop]
    simp [isNotifyEvent]
  · rw [hdrop]
    simp
  · simp [loginWithToken, showSnackbar, emit]

/-- C3: when failover.status resolves to Single, the load appends only the
failover.status call to the trace: no push subscription is requested and
neither failover.get_ips nor failover.disabled.reasons is called. -/
theorem loadFailoverStatus_single (ipsResp : Except WsError (List String))
    (reasonsResp : Except WsError (List FailoverDisabledReason)) (w : World) :
    (loadFailoverStatus (Except.ok FailoverStatus.single) ipsResp reasonsResp w =
      ({ w with state := setFailoverStatus w.state FailoverStatus.single,
                events := w.events ++ [Event.call "failover.status"] }, Except.ok ())) ∧
    ((loadFailoverStatus (Except.ok FailoverStatus.single) ipsResp reasonsResp w).1.events.filter
        isSubscribeEvent = w.events.filter isSubscribeEvent) ∧
    ((loadFailoverStatus (Except.ok FailoverStatus.single) ipsResp reasonsResp w).1.events.filter
        isFailoverDetailCall = w.events.filter isFailoverDetailCall) := by
  have hmain : loadFailoverStatus (Except.ok FailoverStatus.single) ipsResp reasonsResp w =
      ({ w with state := setFailoverStatus w.state FailoverStatus.single,
                events := w.events ++ [Event.call "failover.status"] }, Except.ok ()) := by
    simp [loadFailoverStatus, emit]
  refine ⟨hmain, ?_, ?_⟩
  · rw [hmain]
    simp [List.filter_append, isSubscribeEvent]
  · rw [hmain]
    simp [List.filter_append, isFailoverDetailCall]

/-- C5: an empty generated token only adds the error notification after the
auth.generate_token call and leaves the cached token untouched, and the
surrounding handleSuccessfulLogin still takes its success branch,
unsubscribing both topics and navigating to the resolved redirect URL, with
no error dialog. -/
theorem generateToken_empty (redirectUrl currentUrl : Option String) (w : World) :
    (generateToken (Except.ok "") w =
      ({ w with events := w.events ++ [Event.call "auth.generate_token",
          Event.notify "Error generating token, please try again."] }, Except.ok "")) ∧
    ((generateToken (Except.ok "") w).1.token = w.token) ∧
    (handleSuccessfulLogin (Except.ok "") redirectUrl currentUrl w =
      { w with state := setLoadingState w.state true,
               events := w.events ++ [Event.invokeHandleSuccessfulLogin, Event.snackbarDismiss,
                 Event.call "auth.generate_token",
                 Event.notify "Error generating token, please try again.",
                 Event.unsubscribeTopic "failover.status" statusSubscriptionId,
                 Event.unsubscribeTopic "failover.disabled_reasons" disabledReasonsSubscriptionId,
                 Event.navigate (getRedirectUrl redirectUrl currentUrl)] }) ∧
    (Event.errorDialog ∉
      (handleSuccessfulLogin (Except.ok "") redirectUrl currentUrl w).events.drop
        w.events.length) := by
  have hgen : generateToken (Except.ok "") w =
      ({ w with events := w.events ++ [Event.call "auth.generate_token",
          Event.notify "Error generating token, please try again."] }, Except.ok "") := by
    simp [generateToken, showSnackbar, emit]
  have hlogin : handleSuccessfulLogin (Except.ok "") redirectUrl currentUrl w =
      { w with state := setLoadingState w.state true,
               events := w.events ++ [Event.invokeHandleSuccessfulLogin, Event.snackbarDismiss,
                 Event.call "auth.generate_token",
                 Event.notify "Error generating token, please try again.",
                 Event.unsubscribeTopic "failover.status" statusSubscriptionId,
                 Event.unsubscribeTopic "failover.disabled_reasons" disabledReasonsSubscriptionId,
                 Event.navigate (getRedirectUrl redirectUrl currentUrl)] } := by
    simp [handleSuccessfulLogin, generateToken, showSnackbar, emit, setLoadingState]
  refine ⟨hgen, ?_, hlogin, ?_⟩
  · rw [hgen]
  · rw [hlogin]
    dsimp only
    rw [List.drop_left]
    simp

/-- C7: with no cached token, init always terminates with isLoading false,
and when the root password check (and the rest of the bootstrap) succeeds,
hasRootPassword is exactly the boolean the user.has_root_password RPC
returned. -/
theorem init_no_token (rootResp : Except WsError Bool)
    (statusResp : Except WsError FailoverStatus)
    (ipsResp : Except WsError (List String))
    (reasonsResp : Except WsError (List FailoverDisabledReason))
    (loginResp : Except WsError Bool) (genResp : Except WsError String)
    (redirectUrl currentUrl : Option String) (w : World) (hTok : w.token = none) :
    ((init rootResp statusResp ipsResp reasonsResp loginResp genResp
        redirectUrl currentUrl w).state.isLoading = false) ∧
    (∀ b st ips rs, rootResp = Except.ok b → statusResp = Except.ok st →
      ipsResp = Except.ok ips → reasonsResp = Except.ok rs →
      (init rootResp statusResp ipsResp reasonsResp loginResp genResp
        redirectUrl currentUrl w).state.hasRootPassword = b) := by
  refine ⟨init_isLoading rootResp statusResp ipsResp reasonsResp loginResp genResp
      redirectUrl currentUrl w, ?_⟩
  rintro b st ips rs rfl rfl rfl rfl
  exact init_hasRootPassword b (Except.ok st) (Except.ok ips) (Except.ok rs) loginResp genResp
    redirectUrl currentUrl w hTok

/-- Witness for C7: a concrete bootstrap with no cached token and all RPCs
succeeding, the password check returning false. -/
theorem init_no_token_witness :
    (init (Except.ok false) (Except.ok FailoverStatus.single) (Except.ok [])
      (Except.ok []) (Except.ok true) (Except.ok "t") none none wEmpty).state.isLoading = false ∧
    (init (Except.ok false) (Except.ok FailoverStatus.single) (Except.ok [])
      (Except.ok []) (Except.ok true) (Except.ok "t") none none wEmpty).state.hasRootPassword = false := by
  have h := init_no_token (Except.ok false) (Except.ok FailoverStatus.single) (Except.ok [])
    (Except.ok []) (Except.ok true) (Except.ok "t") none none wEmpty rfl
  exact ⟨h.1, h.2 false FailoverStatus.single [] [] rfl rfl rfl rfl⟩

/-- C8 counterexample: starting idle, a handleSuccessfulLogin run whose
token generation fails reaches its terminal state with isLoading still
true, contradicting the claim that isLoading is false in every terminal
state, including after a failing token-generation sequence. -/
theorem handleSuccessfulLogin_error_leaves_loading :
    wEmpty.state.isLoading = false ∧
    (handleSuccessfulLogin (Except.error { code := 1 }) none none wEmpty).state.isLoading = true := by
  exact ⟨rfl, rfl⟩

/-- C8 amended: isLoading is false in the terminal states of init (success
and failure alike) and of a rejected token login, but handleSuccessfulLogin
leaves isLoading true in its own terminal states: both when token
generation fails (the error path never resets it) and when it succeeds
(the reset is left to the init chain or to navigation tearing the view
down). -/
theorem isLoading_terminal_states (rootResp : Except WsError Bool)
    (statusResp : Except WsError FailoverStatus)
    (ipsResp : Except WsError (List String))
    (reasonsResp : Except WsError (List FailoverDisabledReason))
    (loginResp : Except WsError Bool) (genResp : Except WsError String)
    (redirectUrl currentUrl : Option String) (w : World) :
    ((init rootResp statusResp ipsResp reasonsResp loginResp genResp
        redirectUrl currentUrl w).state.isLoading = false) ∧
    ((loginWithToken (Except.ok false) genResp redirectUrl currentUrl w).1.state.isLoading = false) ∧
    (∀ e : WsError,
      (handleSuccessfulLogin (Except.error e) redirectUrl currentUrl w).state.isLoading = true) ∧
    (∀ t : String,
      (handleSuccessfulLogin (Except.ok t) redirectUrl currentUrl w).state.isLoading = true) := by
  refine ⟨init_isLoading rootResp statusResp ipsResp reasonsResp loginResp genResp
      redirectUrl currentUrl w, ?_, ?_, ?_⟩
  · simp [loginWithToken, showSnackbar, emit]
  · intro e
    simp [handleSuccessfulLogin, generateToken, emit]
  · intro t
    by_cases ht : t = ""
    · simp [handleSuccessfulLogin, generateToken, showSnackbar, emit, ht]
    · simp [handleSuccessfulLogin, generateToken, showSnackbar, emit, ht]

/-- C4: the code unsubscribes the disabled-reasons push subscription under
the topic failover.disabled_reasons although the subscription was created
under the topic failover.disabled.reasons; the subscription identifiers do
match. Evaluated on a concrete successful run after subscribing. -/
theorem failover_unsub_topic_mismatch :
    ((subscribeToFailoverUpdates wEmpty).events.filterMap subscribeEventTopic =
      ["failover.status", "failover.disabled.reasons"]) ∧
    ((handleSuccessfulLogin (Except.ok "tok") none none
        (subscribeToFailoverUpdates wEmpty)).events.filterMap unsubscribeEventTopic =
      ["failover.status", "failover.disabled_reasons"]) ∧
    ((handleSuccessfulLogin (Except.ok "tok") none none
        (subscribeToFailoverUpdates wEmpty)).events.filterMap unsubscribeEventTopic ≠
      (subscribeToFailoverUpdates wEmpty).events.filterMap subscribeEventTopic) := by
  refine ⟨rfl, rfl, ?_⟩
  decide
